import Mathlib

/-!
Verification of the analytics layer of `dashboard_flytxt.py` (a descriptive
analytics dashboard over a log dataset).  The Python source computes, over a
filtered table of timestamped records, aggregate counts, trend
classifications, anomaly flags, day-of-week drop/peak patterns, a short
forecast and pairwise correlations between category (country) time series.

Modelling conventions, applied uniformly:
* Record counts are `ℕ` (they are pandas `groupby(...).size()` group sizes);
  derived statistics (means, percentages) are exact rationals `ℚ`, standing
  for the Python floats.  All thresholds in the source are exact decimals,
  so no floating-point rounding is relevant to the claims.
* Dates, hours and category (country) identifiers are modelled as `ℕ`
  (pandas sorts group keys ascending; `ordenar` below is that sort).
* Pearson correlation thresholds are decided in exact arithmetic: with
  `Sxy = Σ (xᵢ - x̄)(yᵢ - ȳ)`, `Sxx = Σ (xᵢ - x̄)²`, pandas' `corr` value is
  `r = Sxy / (√Sxx · √Syy)`, so for a negative threshold `t < 0` we have
  `r < t ↔ Sxy < 0 ∧ t²·Sxx·Syy < Sxy²`, and for `t > 0`,
  `r > t ↔ 0 < Sxy ∧ t²·Sxx·Syy < Sxy²`; when `Sxx·Syy = 0` pandas yields
  NaN and every comparison is false, which the squared forms also give
  (since then `Sxy = 0`).  This keeps every definition computable.
* pandas `.std()` uses `ddof = 1`: it is `√(S/(n-1))` for
  `S = Σ (xᵢ - x̄)²`, and is NaN for `n = 1` (all comparisons with NaN are
  false, i.e. nothing is flagged); the `2σ` rule `|x - μ| > 2σ` is decided
  in the equivalent squared form `(n-1)·(x-μ)² > 4·S`.
-/

/-- Mean of a list of natural-number counts, as a rational
(`series.mean()`).  For the empty list this is `0/0 = 0`; pandas gives NaN
there, and every use below is guarded by non-emptiness exactly as in the
source. -/
def promedioN (l : List ℕ) : ℚ := (l.sum : ℚ) / l.length

/-- Mean of a list of rationals (`series.mean()` on derived columns). -/
def promedioQ (l : List ℚ) : ℚ := l.sum / l.length

/-- Insert into a sorted list, keeping ascending order (helper for
`ordenar`). -/
def insertarOrdenado (a : ℕ) : List ℕ → List ℕ
  | [] => [a]
  | b :: t => if a ≤ b then a :: b :: t else b :: insertarOrdenado a t

/-- Ascending insertion sort; models pandas sorting group keys ascending
(`groupby` / `pivot` index and column order, `sort_index`). -/
def ordenar (l : List ℕ) : List ℕ := l.foldr insertarOrdenado []

theorem length_insertarOrdenado (a : ℕ) (l : List ℕ) :
    (insertarOrdenado a l).length = l.length + 1 := by
  induction l with
  | nil => rfl
  | cons b t ih =>
    unfold insertarOrdenado
    split <;> simp [ih]

theorem mem_insertarOrdenado {x a : ℕ} {l : List ℕ} :
    x ∈ insertarOrdenado a l ↔ x = a ∨ x ∈ l := by
  induction l with
  | nil => simp [insertarOrdenado]
  | cons b t ih =>
    unfold insertarOrdenado
    split
    · simp
    · simp only [List.mem_cons, ih]
      tauto

theorem length_ordenar (l : List ℕ) : (ordenar l).length = l.length := by
  induction l with
  | nil => rfl
  | cons a t ih =>
    show (insertarOrdenado a (ordenar t)).length = t.length + 1
    rw [length_insertarOrdenado, ih]

theorem mem_ordenar {x : ℕ} {l : List ℕ} : x ∈ ordenar l ↔ x ∈ l := by
  induction l with
  | nil => simp [ordenar]
  | cons a t ih =>
    show x ∈ insertarOrdenado a (ordenar t) ↔ _
    rw [mem_insertarOrdenado]
    simp [ih]

/-! ### Overall trend (`tab1`, lines 477-502)

`primer_valor = registros_dia['registros'].iloc[0]`,
`ultimo_valor = ....iloc[-1]`,
`cambio_porcentual = (cambio_absoluto / primer_valor * 100) if primer_valor > 0 else 0`,
then the narrative branches on `> 10` / `< -10` / otherwise. -/

/-- First value of the daily series (`.iloc[0]`). -/
def primerValor (l : List ℕ) : ℕ := l.headD 0

/-- Last value of the daily series (`.iloc[-1]`). -/
def ultimoValor (l : List ℕ) : ℕ := l.getLastD 0

/-- `cambio_porcentual`: percent change of last vs first value, with the
source's zero-denominator guard returning the number `0`. -/
def cambioPorcentual (l : List ℕ) : ℚ :=
  if 0 < primerValor l then
    ((ultimoValor l : ℚ) - (primerValor l : ℚ)) / (primerValor l : ℚ) * 100
  else 0

/-- The three narrative classifications of the overall trend. -/
inductive Tendencia where
  | crecimiento
  | descenso
  | estable
deriving DecidableEq

/-- Trend classification: `cambio_porcentual > 10` → growth,
`< -10` → decline, else stable (lines 485-502). -/
def clasificacionTendencia (l : List ℕ) : Tendencia :=
  if 10 < cambioPorcentual l then .crecimiento
  else if cambioPorcentual l < -10 then .descenso
  else .estable

/-! ### Per-country segment trend (`tab2`, lines 665-674)

For each country series with more than 3 points:
`inicio = registros_tiempo.iloc[:max(1, n//3)].mean()`,
`fin = registros_tiempo.iloc[-max(1, n//3):].mean()`,
`cambio = ((fin - inicio) / inicio * 100) if inicio > 0 else 0`.
Series with at most 3 points are not given a trend at all. -/

/-- `segmentTrend` for one country series; `none` models the country being
skipped (fewer than 4 points). -/
def tendenciaPais (serie : List ℕ) : Option ℚ :=
  if 3 < serie.length then
    let k := max 1 (serie.length / 3)
    let inicio := promedioN (serie.take k)
    let fin := promedioN (serie.drop (serie.length - k))
    some (if 0 < inicio then (fin - inicio) / inicio * 100 else 0)
  else none

/-! ### Short-horizon forecast (`tab4`, lines 1251-1266)

The whole predictive block is gated on `len(registros_por_fecha) >= 7`.
Inside it, `ultimos_dias = registros_por_fecha.tail(7)`, then
`if len(ultimos_dias) >= 3` (vacuously true under the outer gate),
`mitad = len(ultimos_dias) // 2`,
`promedio_inicio = ultimos_dias.head(mitad)['registros'].mean()`,
`promedio_fin = ultimos_dias.tail(len(ultimos_dias) - mitad)['registros'].mean()`,
`tendencia_pct = ((fin - inicio)/inicio*100) if inicio > 0 else 0`,
`pronostico = ultimos_dias.tail(3)['registros'].mean() * (1 + tendencia_pct/100)`. -/

/-- The projected next value; `none` models the block not being executed. -/
def pronostico (l : List ℕ) : Option ℚ :=
  if 7 ≤ l.length then
    let u := l.drop (l.length - 7)
    if 3 ≤ u.length then
      let mitad := u.length / 2
      let promedioInicio := promedioN (u.take mitad)
      let promedioFin := promedioN (u.drop mitad)
      let tendenciaPct :=
        if 0 < promedioInicio then (promedioFin - promedioInicio) / promedioInicio * 100
        else 0
      some (promedioN (u.drop (u.length - 3)) * (1 + tendenciaPct / 100))
    else none
  else none

/-! ### Anomaly detection

Lines 549-552 (and again 1195-1199 on the same daily aggregate): a day is
anomalous when `registros > promedio + 2*std` or `registros < promedio - 2*std`,
with `std = series.std()` (the `ddof = 1` sample standard deviation
`√(S/(n-1))`, NaN when `n = 1`, in which case both comparisons are false and
nothing is flagged).  The condition `|x - μ| > 2σ` is decided in the exact
squared form `(n-1)·(x-μ)² > 4·S` with `S = Σ (xᵢ-μ)²`. -/

/-- Sum of squared deviations from the mean, `S = Σ (xᵢ - x̄)²` (the
numerator of the `ddof = 1` variance). -/
def sumaDesviaciones2 (l : List ℕ) : ℚ :=
  (l.map (fun (r : ℕ) => ((r : ℚ) - promedioN l) ^ 2)).sum

/-- The 2-standard-deviation anomaly filter on a daily count series.  The
`n ≤ 1` branch models the NaN standard deviation of a single-point series:
no anomalies. -/
def anomalias2sigma (l : List ℕ) : List ℕ :=
  if l.length ≤ 1 then []
  else l.filter (fun r =>
    decide (4 * sumaDesviaciones2 l < ((l.length : ℚ) - 1) * ((r : ℚ) - promedioN l) ^ 2))

/-- Element `i` of a list as a rational, `0` past the end (helper for
`cuantil`). -/
def elemento (s : List ℕ) (i : ℕ) : ℚ := ((s.drop i).headD 0 : ℚ)

/-- `series.quantile(q)`: pandas/numpy linear interpolation on the sorted
values, position `p = q·(n-1)`, value `v⌊p⌋ + (p-⌊p⌋)·(v⌊p⌋₊₁ - v⌊p⌋)`.
For the empty series pandas yields NaN; that case is returned as `0` and is
never reached by the guarded callers. -/
def cuantil (l : List ℕ) (q : ℚ) : ℚ :=
  let s := ordenar l
  if s.length = 0 then 0
  else
    let p : ℚ := q * ((s.length : ℚ) - 1)
    let i : ℕ := (Int.floor p).toNat
    elemento s i + (p - Int.floor p) * (elemento s (i + 1) - elemento s i)

/-- The 1.5·IQR outlier rule on a size series (lines 1621-1628):
`limite_superior = q3 + 1.5*iqr`, `limite_inferior = max(0, q1 - 1.5*iqr)`,
returning the records above the upper bound and below the lower bound.
Sizes are byte counts, hence `ℕ`. -/
def anomaliasIQR (l : List ℕ) : List ℕ × List ℕ :=
  let q1 := cuantil l (1/4)
  let q3 := cuantil l (3/4)
  let iqr := q3 - q1
  let limiteSuperior := q3 + 3/2 * iqr
  let limiteInferior := max 0 (q1 - 3/2 * iqr)
  (l.filter (fun v => decide (limiteSuperior < (v : ℚ))),
   l.filter (fun v => decide ((v : ℚ) < limiteInferior)))

/-! ### Category shares (`tab2`, lines 735-737)

`registros_pais['porcentaje'] = (registros_pais['registros'] /
registros_pais['registros'].sum() * 100).round(2)`.  pandas `.round(2)`
rounds to 2 decimals with ties going to the even hundredth
(round-half-even, the IEEE default used by numpy). -/

/-- Round-half-even to the nearest integer. -/
def redondearEntero (y : ℚ) : ℤ :=
  if y - Int.floor y < 1/2 then Int.floor y
  else if (1 : ℚ)/2 < y - Int.floor y then Int.floor y + 1
  else if Int.floor y % 2 = 0 then Int.floor y else Int.floor y + 1

/-- `.round(2)`: round to 2 decimal places, ties to even. -/
def redondear2 (x : ℚ) : ℚ := (redondearEntero (x * 100) : ℚ) / 100

/-- The per-category percentage column: each group count, divided by the
total, times 100, rounded to 2 decimals. -/
def porcentajes (counts : List ℕ) : List ℚ :=
  counts.map (fun (c : ℕ) => redondear2 ((c : ℚ) / (counts.sum : ℚ) * 100))

/-- Sum of the displayed percentage column. -/
def sumaPorcentajes (counts : List ℕ) : ℚ := (porcentajes counts).sum

/-! ### Day-of-week drop pattern (`tab1`, lines 281-380)

`registros_dia` is the daily aggregate; each date carries its day of week
(`dia_semana` is a function of the date, so the aggregate row has both).
The detector computes `promedio_temp = registros_dia['registros'].mean()`,
`umbral_caida = promedio_temp * 0.85`, keeps the days strictly below the
threshold, takes the most frequent day-of-week among them
(`value_counts().index[0]`; ties are broken by an unspecified pandas order,
modelled as the first maximum in Monday..Sunday order — no claim depends on
a tie), computes `consistencia = cantidad_caidas / total_dias_tipo * 100`
(with a `total > 0` guard) and reports the pattern iff `consistencia >= 50`.
`impacto = (promedio_temp - promedio_caidas) / promedio_temp * 100` is the
reported magnitude. -/

/-- The seven day-of-week values of the `dia_semana` column. -/
inductive DiaSemana where
  | lunes
  | martes
  | miercoles
  | jueves
  | viernes
  | sabado
  | domingo
deriving DecidableEq

/-- Monday..Sunday, the canonical order `dias_orden` of the source. -/
def diasTodos : List DiaSemana :=
  [.lunes, .martes, .miercoles, .jueves, .viernes, .sabado, .domingo]

/-- One row of the daily aggregate: date, its day of week, and the number
of records on that date. -/
structure RegistroDia where
  fecha : ℕ
  dia : DiaSemana
  registros : ℕ
deriving DecidableEq

/-- `promedio_temp`: mean daily count over the aggregate. -/
def promedioRegistros (rows : List RegistroDia) : ℚ :=
  promedioN (rows.map (·.registros))

/-- `umbral_caida = promedio_temp * 0.85`. -/
def umbralCaida (rows : List RegistroDia) : ℚ :=
  promedioRegistros rows * (85/100)

/-- `dias_con_caida`: the days strictly below the drop threshold. -/
def diasConCaida (rows : List RegistroDia) : List RegistroDia :=
  rows.filter (fun r => decide ((r.registros : ℚ) < umbralCaida rows))

/-- How many rows of a list fall on a given day of week. -/
def cuentaDia (rows : List RegistroDia) (d : DiaSemana) : ℕ :=
  (rows.filter (fun r => decide (r.dia = d))).length

/-- First maximiser of `f` in Monday..Sunday order (`value_counts().index[0]`). -/
def argmaxDia (f : DiaSemana → ℕ) : DiaSemana :=
  diasTodos.foldl (fun best d => if f best < f d then d else best) .lunes

/-- `dia_mas_caidas`: the most frequent day-of-week among the drop days
(`none` when there are no drop days, in which case the whole branch is
skipped). -/
def diaMasCaidas (rows : List RegistroDia) : Option DiaSemana :=
  if diasConCaida rows = [] then none
  else some (argmaxDia (cuentaDia (diasConCaida rows)))

/-- `cantidad_caidas`: occurrences of that day-of-week among the drop days. -/
def cantidadCaidas (rows : List RegistroDia) : ℕ :=
  match diaMasCaidas rows with
  | none => 0
  | some d => cuentaDia (diasConCaida rows) d

/-- `total_dias_tipo`: total occurrences of that day-of-week in range. -/
def totalDiasTipo (rows : List RegistroDia) : ℕ :=
  match diaMasCaidas rows with
  | none => 0
  | some d => cuentaDia rows d

/-- `consistencia = (cantidad_caidas / total_dias_tipo * 100) if total > 0 else 0`. -/
def consistencia (rows : List RegistroDia) : ℚ :=
  if 0 < totalDiasTipo rows then
    (cantidadCaidas rows : ℚ) / (totalDiasTipo rows : ℚ) * 100
  else 0

/-- Whether the drop pattern is reported: drop days exist and
`consistencia >= 50`. -/
def caidaReportada (rows : List RegistroDia) : Bool :=
  decide (diasConCaida rows ≠ []) && decide (50 ≤ consistencia rows)

/-- `promedio_caidas`: mean count of the drop days falling on the detected
day-of-week. -/
def promedioCaidasDia (rows : List RegistroDia) : ℚ :=
  match diaMasCaidas rows with
  | none => 0
  | some d =>
    promedioN (((diasConCaida rows).filter (fun r => decide (r.dia = d))).map
      (·.registros))

/-- `impacto`: the reported percentage magnitude of the drop. -/
def impacto (rows : List RegistroDia) : ℚ :=
  (promedioRegistros rows - promedioCaidasDia rows) / promedioRegistros rows * 100

/-- Day of week of day index `i` when day 0 is a Monday. -/
def diaDeIndice : ℕ → DiaSemana
  | 0 => .lunes
  | 1 => .martes
  | 2 => .miercoles
  | 3 => .jueves
  | 4 => .viernes
  | 5 => .sabado
  | _ => .domingo

/-- The spec's Sunday test scenario: 28 consecutive days starting on a
Monday; every non-Sunday has 100 records and each of the 4 Sundays has 50,
i.e. every Sunday count is 50% of the (constant) weekday mean. -/
def escenarioDomingos : List RegistroDia :=
  (List.range 28).map (fun i =>
    { fecha := i
      dia := diaDeIndice (i % 7)
      registros := if i % 7 = 6 then 50 else 100 })

/-! ### The filtered view

One record of `df_filtrado`.  The analytics layer requires `fecha` and
`pais`; `dia_semana` is determined by the date, `hora` is 0-23, `status` is
free text.  Category (country) ids and dates are `ℕ` (pandas sorts both
ascending wherever order matters). -/

structure Registro where
  fecha : ℕ
  pais : ℕ
  dia : DiaSemana
  hora : ℕ
  status : String

/-- A record with only date and country relevant (all other fields
defaulted), for building concrete views. -/
def registroDe (f p : ℕ) : Registro :=
  { fecha := f, pais := p, dia := .lunes, hora := 0, status := "" }

/-- Distinct dates of the view, in first-appearance order
(`df['fecha'].unique()` / the keys of a groupby before sorting). -/
def fechasDistintas (rs : List Registro) : List ℕ := (rs.map (·.fecha)).dedup

/-- Distinct countries of the view (`df['pais'].unique()`). -/
def paisesDistintos (rs : List Registro) : List ℕ := (rs.map (·.pais)).dedup

/-- Distinct dates sorted ascending (a groupby / pivot index). -/
def fechasOrdenadas (rs : List Registro) : List ℕ := ordenar (fechasDistintas rs)

/-- Distinct countries sorted ascending (the pivot's column order). -/
def paisesOrdenados (rs : List Registro) : List ℕ := ordenar (paisesDistintos rs)

/-- Daily aggregate of the view: count of records per distinct date,
ascending by date (`df.groupby('fecha').size()`). -/
def conteosPorFecha (rs : List Registro) : List ℕ :=
  (fechasOrdenadas rs).map (fun d => (rs.filter (fun r => decide (r.fecha = d))).length)

/-- Per-country aggregate: count of records per country, ascending by
country id (`df.groupby('pais').size()`). -/
def conteosPorPais (rs : List Registro) : List ℕ :=
  (paisesOrdenados rs).map (fun p => (rs.filter (fun r => decide (r.pais = p))).length)

/-! ### Cross-category correlation scan (`tab6`, lines 1660-1710)

`matriz_pais_fecha = df_filtrado.groupby(['fecha','pais']).size()`, pivoted
to a date × country matrix with `fillna(0)`.  For every pair of columns
`i < j` (in the pivot's sorted column order) the pandas Pearson correlation
`corr_val` is computed; the pair goes to `pares_negativos` iff
`corr_val < -0.3` and to `pares_positivos` iff `corr_val > 0.7`.  Pairs
involving a constant column get a NaN correlation and land in neither list.
The threshold comparisons are decided in exact squared form (see the header
comment): `r < -3/10 ↔ Sxy < 0 ∧ (3/10)²·Sxx·Syy < Sxy²` and
`r > 7/10 ↔ 0 < Sxy ∧ (7/10)²·Sxx·Syy < Sxy²`. -/

/-- Sum of squared deviations of a rational series, `Sxx`. -/
def desviaciones2 (x : List ℚ) : ℚ := ((x.map (fun v => (v - promedioQ x) ^ 2)).sum)

/-- Sum of products of deviations of two series, `Sxy` (pairing truncates
to the shorter list; the pivot's columns all share the date index, so both
always have the same length). -/
def codesviaciones (x y : List ℚ) : ℚ :=
  ((x.zip y).map (fun p => (p.1 - promedioQ x) * (p.2 - promedioQ y))).sum

/-- Decides `corr_val < -0.3` for pandas' Pearson `corr_val`
(false on NaN, i.e. on constant columns). -/
def correlacionNegFuerte (x y : List ℚ) : Bool :=
  decide (codesviaciones x y < 0) &&
    decide (9 * desviaciones2 x * desviaciones2 y < 100 * codesviaciones x y ^ 2)

/-- Decides `corr_val > 0.7` (false on NaN). -/
def correlacionPosFuerte (x y : List ℚ) : Bool :=
  decide (0 < codesviaciones x y) &&
    decide (49 * desviaciones2 x * desviaciones2 y < 100 * codesviaciones x y ^ 2)

/-- Decides `corr_val ≤ -0.99` (false on NaN); used to state the strength
of the correlation in the spec's mirrored-series test. -/
def correlacionLeMenos099 (x y : List ℚ) : Bool :=
  decide (codesviaciones x y < 0) &&
    decide (9801 * desviaciones2 x * desviaciones2 y ≤ 10000 * codesviaciones x y ^ 2)

/-- Column `p` of the pivot: for each distinct date (ascending), the number
of records of country `p` on that date — `0` where the combination is
missing, exactly `pivot(...).fillna(0)`. -/
def columna (rs : List Registro) (p : ℕ) : List ℚ :=
  (fechasOrdenadas rs).map (fun d =>
    ((rs.filter (fun r => decide (r.fecha = d ∧ r.pais = p))).length : ℚ))

/-- All pairs `(l[i], l[j])` with `i < j`, in the nested-loop order of the
source. -/
def paresDe : List ℕ → List (ℕ × ℕ)
  | [] => []
  | a :: t => t.map (fun b => (a, b)) ++ paresDe t

/-- The candidate column pairs of the correlation scan. -/
def paresColumnas (rs : List Registro) : List (ℕ × ℕ) := paresDe (paisesOrdenados rs)

/-- `pares_negativos`: the pairs reported as "competing". -/
def paresNegativos (rs : List Registro) : List (ℕ × ℕ) :=
  (paresColumnas rs).filter (fun pq => correlacionNegFuerte (columna rs pq.1) (columna rs pq.2))

/-- `pares_positivos`: the pairs reported as "co-moving". -/
def paresPositivos (rs : List Registro) : List (ℕ × ℕ) :=
  (paresColumnas rs).filter (fun pq => correlacionPosFuerte (columna rs pq.1) (columna rs pq.2))

/-- The whole correlation analysis with its gates (lines 1661 and 1669):
it runs only under `df_filtrado['pais'].nunique() > 1` and then
`len(pivot_paises.columns) >= 2`; `none` models the analysis being skipped.
There is no gate on the number of distinct dates. -/
def analisisCorrelaciones (rs : List Registro) :
    Option (List (ℕ × ℕ) × List (ℕ × ℕ)) :=
  if 1 < (paisesDistintos rs).length then
    if 2 ≤ (paisesOrdenados rs).length then
      some (paresNegativos rs, paresPositivos rs)
    else none
  else none

/-! ### Success-rate metric (lines 157-163)

`if 'status' in df_filtrado.columns and len(df_filtrado) > 0:` count the
records whose status, as a string, matches the case-insensitive regex
`'Success|success|SUCCESS'` (i.e. contains "success" in any letter case),
and show `count / len * 100`; otherwise show "N/A" (modelled as `none`). -/

/-- Whether a status value counts as successful: its lowercase form
contains the substring "success" (the regex `'Success|success|SUCCESS'`
with `case=False` matches exactly the case-insensitive occurrences of
"success"; lowering character by character models that). -/
def esExitoso (s : String) : Bool :=
  decide (List.IsInfix "success".toList (s.toList.map Char.toLower))

/-- The success-rate metric; `tieneStatus` models the presence of the
optional `status` column, and `none` models the "N/A" display. -/
def tasaExito (tieneStatus : Bool) (rs : List Registro) : Option ℚ :=
  if tieneStatus = true ∧ 0 < rs.length then
    some (((rs.filter (fun r => esExitoso r.status)).length : ℚ) / (rs.length : ℚ) * 100)
  else none

/-! ### The per-tab analyses and their empty-view guards

Every tab body (lines 178-179, 657-658, 931-932, 1061-1062, 1330-1331,
1501-1502) starts with `if len(df_filtrado) == 0:` and renders a "no data"
warning instead of computing anything.  Each analysis is total — a Lean
function cannot raise — which models the "never an exception" half of the
spec's empty-view contract. -/

/-- Tab 1 (temporal trends): daily aggregate, trend classification,
2σ anomalies. -/
def tabTendencias (rs : List Registro) : Option (List ℕ × Tendencia × List ℕ) :=
  if rs.length = 0 then none
  else some (conteosPorFecha rs, clasificacionTendencia (conteosPorFecha rs),
    anomalias2sigma (conteosPorFecha rs))

/-- Tab 2 (by country): per-country counts and percentage shares. -/
def tabPais (rs : List Registro) : Option (List ℕ × List ℚ) :=
  if rs.length = 0 then none
  else some (conteosPorPais rs, porcentajes (conteosPorPais rs))

/-- Tab 3 (by day of week): counts per day-of-week value present. -/
def tabDiaSemana (rs : List Registro) : Option (List (DiaSemana × ℕ)) :=
  if rs.length = 0 then none
  else some ((diasTodos.filter (fun d => rs.any (fun r => decide (r.dia = d)))).map
    (fun d => (d, (rs.filter (fun r => decide (r.dia = d))).length)))

/-- Tab 4 (by calendar date): daily aggregate and the short forecast. -/
def tabFecha (rs : List Registro) : Option (List ℕ × Option ℚ) :=
  if rs.length = 0 then none
  else some (conteosPorFecha rs, pronostico (conteosPorFecha rs))

/-- Tab 5 (by hour): counts per distinct hour, ascending. -/
def tabHora (rs : List Registro) : Option (List (ℕ × ℕ)) :=
  if rs.length = 0 then none
  else some ((ordenar ((rs.map (·.hora)).dedup)).map
    (fun h => (h, (rs.filter (fun r => decide (r.hora = h))).length)))

/-- Tab 6 (executive summary): total, country count, correlation scan. -/
def tabResumen (rs : List Registro) :
    Option (ℕ × ℕ × Option (List (ℕ × ℕ) × List (ℕ × ℕ))) :=
  if rs.length = 0 then none
  else some (rs.length, (paisesDistintos rs).length, analisisCorrelaciones rs)

/-! ### Helper lemmas -/

theorem promedioN_const (l : List ℕ) (v : ℕ) (h0 : l ≠ [])
    (hconst : ∀ x ∈ l, x = v) : promedioN l = v := by
  have hrep : l = List.replicate l.length v := List.eq_replicate_of_mem hconst
  rw [promedioN, hrep]
  rw [List.sum_replicate, List.length_replicate, smul_eq_mul]
  have hl : l.length ≠ 0 := by
    simpa [List.length_eq_zero] using h0
  push_cast
  rw [mul_comm, mul_div_assoc, div_self (by exact_mod_cast hl), mul_one]

theorem sumaDesviaciones2_const (l : List ℕ) (v : ℕ) (h0 : l ≠ [])
    (hconst : ∀ x ∈ l, x = v) : sumaDesviaciones2 l = 0 := by
  rw [sumaDesviaciones2]
  apply List.sum_eq_zero
  intro x hx
  obtain ⟨r, hr, hrx⟩ := List.mem_map.mp hx
  rw [← hrx, promedioN_const l v h0 hconst, hconst r hr]
  ring

theorem elemento_const (s : List ℕ) (v : ℕ) (hconst : ∀ x ∈ s, x = v)
    (i : ℕ) (hi : i < s.length) : elemento s i = v := by
  rw [elemento]
  have hne : s.drop i ≠ [] := by
    intro hnil
    have := List.length_drop i s
    rw [hnil] at this
    simp at this
    omega
  cases hd : s.drop i with
  | nil => exact absurd hd hne
  | cons a t =>
    have ha : a ∈ s := List.drop_subset i s (hd ▸ List.mem_cons_self a t)
    simp [hconst a ha]

theorem cuantil_const (l : List ℕ) (v : ℕ) (q : ℚ) (h0 : l ≠ [])
    (hq0 : 0 ≤ q) (hq1 : q ≤ 1) (hconst : ∀ x ∈ l, x = v) :
    cuantil l q = v := by
  have hconst' : ∀ x ∈ ordenar l, x = v := fun x hx =>
    hconst x (mem_ordenar.mp hx)
  have hlen : (ordenar l).length = l.length := length_ordenar l
  have hpos : 0 < l.length := List.length_pos.mpr h0
  have hne : (ordenar l).length ≠ 0 := by omega
  rw [cuantil]
  simp only [hlen]
  rw [if_neg (by omega)]
  set n := l.length with hn
  set p : ℚ := q * ((n : ℚ) - 1) with hp
  have hp0 : 0 ≤ p := by
    apply mul_nonneg hq0
    have : (1 : ℚ) ≤ (n : ℚ) := by exact_mod_cast hpos
    linarith
  have hpn : p ≤ (n : ℚ) - 1 := by
    have h1 : (0 : ℚ) ≤ (n : ℚ) - 1 := by
      have : (1 : ℚ) ≤ (n : ℚ) := by exact_mod_cast hpos
      linarith
    calc p = q * ((n : ℚ) - 1) := hp
      _ ≤ 1 * ((n : ℚ) - 1) := by
          exact mul_le_mul_of_nonneg_right hq1 h1
      _ = (n : ℚ) - 1 := one_mul _
  have hfl0 : 0 ≤ Int.floor p := Int.floor_nonneg.mpr hp0
  have hfln : Int.floor p ≤ (n : ℤ) - 1 := by
    have h2 : ((n : ℚ) - 1) = (((n : ℤ) - 1 : ℤ) : ℚ) := by push_cast; ring
    have := Int.floor_le_floor (α := ℚ) hpn
    rwa [h2, Int.floor_intCast] at this
  have hilt : (Int.floor p).toNat < n := by omega
  have hlo : elemento (ordenar l) (Int.floor p).toNat = v :=
    elemento_const _ v hconst' _ (by omega)
  by_cases hhi : (Int.floor p).toNat + 1 < n
  · have hhiv : elemento (ordenar l) ((Int.floor p).toNat + 1) = v :=
      elemento_const _ v hconst' _ (by omega)
    rw [hlo, hhiv]
    ring
  · have heq : (Int.floor p : ℤ) = (n : ℤ) - 1 := by omega
    have hfrac : p - Int.floor p = 0 := by
      have h3 : ((Int.floor p : ℤ) : ℚ) = (n : ℚ) - 1 := by
        rw [heq]; push_cast; ring
      have h4 : (Int.floor p : ℚ) ≤ p := Int.floor_le p
      have : p = (Int.floor p : ℚ) := le_antisymm (by rw [h3]; exact hpn) h4
      linarith
    rw [hlo, hfrac]
    ring

theorem redondearEntero_cerca (y : ℚ) : |(redondearEntero y : ℚ) - y| ≤ 1/2 := by
  rw [redondearEntero]
  have h1 := Int.floor_le y
  have h2 := Int.lt_floor_add_one y
  split_ifs with a b c <;> rw [abs_le] <;> constructor <;> push_cast <;>
    push_cast at h2 <;> linarith

theorem redondear2_cerca (x : ℚ) : |redondear2 x - x| ≤ 1/200 := by
  have h := redondearEntero_cerca (x * 100)
  rw [redondear2]
  have heq : (redondearEntero (x * 100) : ℚ) / 100 - x =
      ((redondearEntero (x * 100) : ℚ) - x * 100) / 100 := by ring
  rw [heq, abs_div]
  rw [show |(100 : ℚ)| = 100 by norm_num]
  linarith

theorem suma_redondear2_cerca (l : List ℚ) :
    |(l.map redondear2).sum - l.sum| ≤ (l.length : ℚ) / 200 := by
  induction l with
  | nil => simp
  | cons a t ih =>
    simp only [List.map_cons, List.sum_cons, List.length_cons]
    have h := redondear2_cerca a
    calc |redondear2 a + (t.map redondear2).sum - (a + t.sum)|
        = |(redondear2 a - a) + ((t.map redondear2).sum - t.sum)| := by ring_nf
      _ ≤ |redondear2 a - a| + |(t.map redondear2).sum - t.sum| := abs_add _ _
      _ ≤ 1/200 + (t.length : ℚ) / 200 := add_le_add h ih
      _ = ((t.length : ℚ) + 1) / 200 := by ring
      _ = (((t.length + 1 : ℕ)) : ℚ) / 200 := by push_cast; ring

theorem suma_partes_crudas (counts : List ℕ) (S : ℚ) :
    (counts.map (fun (c : ℕ) => (c : ℚ) / S * 100)).sum = (counts.sum : ℚ) / S * 100 := by
  induction counts with
  | nil => simp
  | cons a t ih =>
    simp only [List.map_cons, List.sum_cons, ih]
    push_cast
    ring

theorem mem_diasTodos (d : DiaSemana) : d ∈ diasTodos := by
  cases d <;> simp [diasTodos]

theorem argmaxDia_le (f : DiaSemana → ℕ) :
    ∀ d ∈ diasTodos, f d ≤ f (argmaxDia f) := by
  have paso : ∀ (l : List DiaSemana) (b : DiaSemana),
      f b ≤ f (l.foldl (fun best d => if f best < f d then d else best) b) ∧
      ∀ d ∈ l, f d ≤ f (l.foldl (fun best d => if f best < f d then d else best) b) := by
    intro l
    induction l with
    | nil => intro b; exact ⟨le_refl _, by simp⟩
    | cons a t ih =>
      intro b
      simp only [List.foldl_cons]
      by_cases h : f b < f a
      · rw [if_pos h]
        refine ⟨le_trans (le_of_lt h) (ih a).1, ?_⟩
        intro d hd
        rcases List.mem_cons.mp hd with rfl | hdt
        · exact (ih _).1
        · exact (ih _).2 d hdt
      · rw [if_neg h]
        refine ⟨(ih b).1, ?_⟩
        intro d hd
        rcases List.mem_cons.mp hd with rfl | hdt
        · exact le_trans (not_lt.mp h) (ih b).1
        · exact (ih b).2 d hdt
  intro d hd
  exact (paso diasTodos .lunes).2 d hd

theorem length_filter_implica {α : Type} (l : List α) (p q : α → Bool)
    (h : ∀ a, p a = true → q a = true) :
    (l.filter p).length ≤ (l.filter q).length := by
  induction l with
  | nil => simp
  | cons a t ih =>
    by_cases hp : p a = true
    · rw [List.filter_cons_of_pos hp, List.filter_cons_of_pos (h a hp)]
      simpa using ih
    · rw [List.filter_cons_of_neg (by simpa using hp)]
      by_cases hq : q a = true
      · rw [List.filter_cons_of_pos hq]
        simp only [List.length_cons]
        omega
      · rw [List.filter_cons_of_neg (by simpa using hq)]
        exact ih

theorem cuentaDia_caida_le (rows : List RegistroDia) (d : DiaSemana) :
    cuentaDia (diasConCaida rows) d ≤ cuentaDia rows d := by
  rw [cuentaDia, cuentaDia, diasConCaida, List.filter_filter]
  apply length_filter_implica
  intro r hr
  simp only [Bool.and_eq_true] at hr
  exact hr.1

theorem totalDiasTipo_pos (rows : List RegistroDia)
    (h : diasConCaida rows ≠ []) : 0 < totalDiasTipo rows ∧
      cantidadCaidas rows ≤ totalDiasTipo rows := by
  obtain ⟨r, hr⟩ := List.exists_mem_of_ne_nil _ h
  set d := argmaxDia (cuentaDia (diasConCaida rows)) with hd
  have hsome : diaMasCaidas rows = some d := by
    rw [diaMasCaidas, if_neg h]
  have h1 : 0 < cuentaDia (diasConCaida rows) r.dia := by
    rw [cuentaDia]
    apply List.length_pos.mpr
    intro hnil
    have : r ∈ (diasConCaida rows).filter (fun x => decide (x.dia = r.dia)) :=
      List.mem_filter.mpr ⟨hr, by simp⟩
    rw [hnil] at this
    exact absurd this (List.not_mem_nil r)
  have h2 : cuentaDia (diasConCaida rows) r.dia ≤ cuentaDia (diasConCaida rows) d :=
    argmaxDia_le _ r.dia (mem_diasTodos r.dia)
  have h3 : cuentaDia (diasConCaida rows) d ≤ cuentaDia rows d :=
    cuentaDia_caida_le rows d
  have hcant : cantidadCaidas rows = cuentaDia (diasConCaida rows) d := by
    rw [cantidadCaidas, hsome]
  have htot : totalDiasTipo rows = cuentaDia rows d := by
    rw [totalDiasTipo, hsome]
  rw [hcant, htot]
  exact ⟨by omega, h3⟩

theorem codesviaciones_espejo (x y : List ℚ)
    (h : List.Forall₂ (fun a b => b - promedioQ y = -(a - promedioQ x)) x y) :
    codesviaciones x y = -(desviaciones2 x) ∧ desviaciones2 y = desviaciones2 x := by
  have clave : ∀ (mx my : ℚ) (u v : List ℚ),
      List.Forall₂ (fun a b => b - my = -(a - mx)) u v →
      ((u.zip v).map (fun p => (p.1 - mx) * (p.2 - my))).sum =
          -((u.map (fun a => (a - mx) ^ 2)).sum) ∧
        (v.map (fun b => (b - my) ^ 2)).sum = (u.map (fun a => (a - mx) ^ 2)).sum := by
    intro mx my u v huv
    induction huv with
    | nil => simp
    | cons hab tail ih =>
      simp only [List.zip_cons_cons, List.map_cons, List.sum_cons, ih.1, ih.2]
      constructor
      · rw [hab]; ring
      · rw [hab]; ring
  have hx : desviaciones2 y = (y.map (fun b => (b - promedioQ y) ^ 2)).sum := rfl
  exact ⟨(clave _ _ _ _ h).1, (clave _ _ _ _ h).2⟩

theorem codesviaciones_corta (x y : List ℚ) (h : x.length ≤ 1) :
    codesviaciones x y = 0 := by
  match x, h with
  | [], _ => simp [codesviaciones]
  | [a], _ =>
    match y with
    | [] => simp [codesviaciones]
    | b :: t =>
      have : promedioQ [a] = a := by
        simp [promedioQ]
      simp [codesviaciones, this]

theorem length_columna (rs : List Registro) (p : ℕ) :
    (columna rs p).length = (fechasDistintas rs).length := by
  rw [columna, List.length_map, fechasOrdenadas, length_ordenar]

theorem pares_en_analisis (rs : List Registro) (pq : ℕ × ℕ)
    (hfe : (fechasDistintas rs).length ≤ 1) :
    correlacionNegFuerte (columna rs pq.1) (columna rs pq.2) = false ∧
      correlacionPosFuerte (columna rs pq.1) (columna rs pq.2) = false := by
  have hc : codesviaciones (columna rs pq.1) (columna rs pq.2) = 0 :=
    codesviaciones_corta _ _ (by rw [length_columna]; exact hfe)
  rw [correlacionNegFuerte, correlacionPosFuerte, hc]
  norm_num

theorem promedioRegistros_escenario : promedioRegistros escenarioDomingos = 650/7 := by
  have hs : (escenarioDomingos.map (·.registros)).sum = 2600 := by rfl
  have hl : (escenarioDomingos.map (·.registros)).length = 28 := by rfl
  rw [promedioRegistros, promedioN, hs, hl]
  norm_num

theorem diasConCaida_escenario :
    diasConCaida escenarioDomingos =
      [⟨6, .domingo, 50⟩, ⟨13, .domingo, 50⟩, ⟨20, .domingo, 50⟩,
        ⟨27, .domingo, 50⟩] := by
  have hu : umbralCaida escenarioDomingos = 1105/14 := by
    rw [umbralCaida, promedioRegistros_escenario]
    norm_num
  rw [diasConCaida]
  simp only [hu]
  norm_num [escenarioDomingos, List.range_succ, diaDeIndice, List.filter]

theorem diaMasCaidas_escenario :
    diaMasCaidas escenarioDomingos = some .domingo := by
  rw [diaMasCaidas, diasConCaida_escenario]
  rfl

theorem cantidadCaidas_escenario : cantidadCaidas escenarioDomingos = 4 := by
  rw [cantidadCaidas, diaMasCaidas_escenario, diasConCaida_escenario]
  rfl

theorem totalDiasTipo_escenario : totalDiasTipo escenarioDomingos = 4 := by
  rw [totalDiasTipo, diaMasCaidas_escenario]
  rfl

theorem consistencia_escenario : consistencia escenarioDomingos = 100 := by
  rw [consistencia, cantidadCaidas_escenario, totalDiasTipo_escenario]
  norm_num

theorem caidaReportada_escenario : caidaReportada escenarioDomingos = true := by
  rw [caidaReportada, consistencia_escenario, diasConCaida_escenario]
  norm_num
  simp

theorem impacto_escenario : impacto escenarioDomingos = 600/13 := by
  have hp : promedioCaidasDia escenarioDomingos = 50 := by
    rw [promedioCaidasDia, diaMasCaidas_escenario, diasConCaida_escenario]
    norm_num [promedioN, List.filter]
  rw [impacto, hp, promedioRegistros_escenario]
  norm_num

/-- The mirrored-series correlation example: two countries over the same 4
dates with daily counts `[1,2,3,4]` and `[4,3,2,1]` — exact negatives of
each other after mean-centering. -/
def ejemploEspejo : List Registro :=
  [registroDe 0 0,
   registroDe 1 0, registroDe 1 0,
   registroDe 2 0, registroDe 2 0, registroDe 2 0,
   registroDe 3 0, registroDe 3 0, registroDe 3 0, registroDe 3 0,
   registroDe 0 1, registroDe 0 1, registroDe 0 1, registroDe 0 1,
   registroDe 1 1, registroDe 1 1, registroDe 1 1,
   registroDe 2 1, registroDe 2 1,
   registroDe 3 1]

theorem columna_espejo_0 : columna ejemploEspejo 0 = [1, 2, 3, 4] := by
  have hf : fechasOrdenadas ejemploEspejo = [0, 1, 2, 3] := by rfl
  rw [columna, hf]
  norm_num [List.map_cons,
    show (List.filter (fun r => decide (r.fecha = 0) && decide (r.pais = 0)) ejemploEspejo).length = 1 from rfl,
    show (List.filter (fun r => decide (r.fecha = 1) && decide (r.pais = 0)) ejemploEspejo).length = 2 from rfl,
    show (List.filter (fun r => decide (r.fecha = 2) && decide (r.pais = 0)) ejemploEspejo).length = 3 from rfl,
    show (List.filter (fun r => decide (r.fecha = 3) && decide (r.pais = 0)) ejemploEspejo).length = 4 from rfl]

theorem columna_espejo_1 : columna ejemploEspejo 1 = [4, 3, 2, 1] := by
  have hf : fechasOrdenadas ejemploEspejo = [0, 1, 2, 3] := by rfl
  rw [columna, hf]
  norm_num [List.map_cons,
    show (List.filter (fun r => decide (r.fecha = 0) && decide (r.pais = 1)) ejemploEspejo).length = 4 from rfl,
    show (List.filter (fun r => decide (r.fecha = 1) && decide (r.pais = 1)) ejemploEspejo).length = 3 from rfl,
    show (List.filter (fun r => decide (r.fecha = 2) && decide (r.pais = 1)) ejemploEspejo).length = 2 from rfl,
    show (List.filter (fun r => decide (r.fecha = 3) && decide (r.pais = 1)) ejemploEspejo).length = 1 from rfl]

theorem correlacionNegFuerte_espejo :
    correlacionNegFuerte [1, 2, 3, 4] [4, 3, 2, 1] = true := by
  norm_num [correlacionNegFuerte, codesviaciones, desviaciones2, promedioQ]

theorem paresNegativos_espejo : paresNegativos ejemploEspejo = [(0, 1)] := by
  have hpc : paresColumnas ejemploEspejo = [(0, 1)] := by rfl
  rw [paresNegativos, hpc]
  simp only [List.filter, columna_espejo_0, columna_espejo_1,
    correlacionNegFuerte_espejo]


/-! ## The claims -/

/-- Claim C1: for a non-empty daily aggregate carrying day-of-week, the drop
detector thresholds at `0.85 ×` the overall daily mean, takes the days
strictly below it, picks the most frequent day-of-week among them, and
reports a drop pattern for that day-of-week iff its consistency
(`below-threshold occurrences / total occurrences of that weekday`) is at
least 50%.  In the Sunday scenario (every Sunday at 50% of the constant
weekday level, 4 Sundays in a 28-day range) the Sunday pattern is reported
with consistency 100% ≥ 50% and magnitude `600/13 ≈ 46.2%`, within 5
points of the claimed ≈ 50% (the source measures the drop against the
overall mean, which itself includes the depressed Sundays). -/
theorem correctitud_C1 :
    (∀ rows : List RegistroDia, diasConCaida rows ≠ [] →
      (caidaReportada rows = true ↔
        50 ≤ (cantidadCaidas rows : ℚ) / (totalDiasTipo rows : ℚ) * 100))
    ∧ caidaReportada escenarioDomingos = true
    ∧ diaMasCaidas escenarioDomingos = some .domingo
    ∧ consistencia escenarioDomingos = 100
    ∧ impacto escenarioDomingos = 600 / 13
    ∧ |impacto escenarioDomingos - 50| < 5 := by
  refine ⟨?_, caidaReportada_escenario, diaMasCaidas_escenario,
    consistencia_escenario, impacto_escenario, ?_⟩
  · intro rows h
    obtain ⟨htot, -⟩ := totalDiasTipo_pos rows h
    have hcons : consistencia rows =
        (cantidadCaidas rows : ℚ) / (totalDiasTipo rows : ℚ) * 100 := by
      rw [consistencia, if_pos htot]
    rw [caidaReportada, hcons]
    simp [h]
  · rw [impacto_escenario, abs_lt]
    constructor <;> norm_num

/-- Witness for C1: the Sunday scenario instantiates the general theorem;
its drop-day set is non-empty and the reporting criterion holds there. -/
theorem correctitud_C1_testigo :
    diasConCaida escenarioDomingos ≠ [] ∧
      (caidaReportada escenarioDomingos = true ↔
        50 ≤ (cantidadCaidas escenarioDomingos : ℚ) /
            (totalDiasTipo escenarioDomingos : ℚ) * 100) := by
  have h : diasConCaida escenarioDomingos ≠ [] := by
    rw [diasConCaida_escenario]
    simp
  exact ⟨h, correctitud_C1.1 escenarioDomingos h⟩

/-- Claim C2: `overallTrend` computes the percent change
`(last - first) / first × 100` (whenever the first value is positive) and
classifies growth iff it exceeds +10, decline iff below −10, stable iff
within ±10; on `[100, 100, 100, 150]` it yields +50% and growth. -/
theorem correctitud_C2 :
    (∀ l : List ℕ, 0 < primerValor l →
      cambioPorcentual l =
        ((ultimoValor l : ℚ) - (primerValor l : ℚ)) / (primerValor l : ℚ) * 100)
    ∧ (∀ l : List ℕ,
      (clasificacionTendencia l = .crecimiento ↔ 10 < cambioPorcentual l)
      ∧ (clasificacionTendencia l = .descenso ↔ cambioPorcentual l < -10)
      ∧ (clasificacionTendencia l = .estable ↔
          -10 ≤ cambioPorcentual l ∧ cambioPorcentual l ≤ 10))
    ∧ cambioPorcentual [100, 100, 100, 150] = 50
    ∧ clasificacionTendencia [100, 100, 100, 150] = .crecimiento := by
  refine ⟨?_, ?_, ?_, ?_⟩
  · intro l h
    rw [cambioPorcentual, if_pos h]
  · intro l
    rw [clasificacionTendencia]
    split_ifs with h1 h2
    · exact ⟨iff_of_true rfl h1,
        iff_of_false (fun h => nomatch h) (by linarith),
        iff_of_false (fun h => nomatch h) (by rintro ⟨-, h⟩; linarith)⟩
    · exact ⟨iff_of_false (fun h => nomatch h) h1,
        iff_of_true rfl h2,
        iff_of_false (fun h => nomatch h) (by rintro ⟨h, -⟩; linarith)⟩
    · exact ⟨iff_of_false (fun h => nomatch h) h1,
        iff_of_false (fun h => nomatch h) h2,
        iff_of_true rfl ⟨not_lt.mp h2, not_lt.mp h1⟩⟩
  · norm_num [cambioPorcentual, primerValor, ultimoValor]
  · rw [clasificacionTendencia]
    norm_num [cambioPorcentual, primerValor, ultimoValor]

/-- Witness for C2: the percent-change formula instantiated on the spec's
test series, whose first value is positive. -/
theorem correctitud_C2_testigo :
    0 < primerValor [100, 100, 100, 150] ∧
      cambioPorcentual [100, 100, 100, 150] =
        ((ultimoValor [100, 100, 100, 150] : ℚ) -
            (primerValor [100, 100, 100, 150] : ℚ)) /
          (primerValor [100, 100, 100, 150] : ℚ) * 100 := by
  refine ⟨by norm_num [primerValor], ?_⟩
  exact correctitud_C2.1 [100, 100, 100, 150] (by norm_num [primerValor])

/-- Counterexample to C3 as stated: a daily series with 3 points (at least
the claimed minimum of 3), for which the code computes no forecast at all —
the whole predictive block is gated on at least 7 points. -/
theorem contraejemplo_C3 :
    3 ≤ ([10, 20, 30] : List ℕ).length ∧ pronostico [10, 20, 30] = none := by
  constructor
  · norm_num
  · norm_num [pronostico]

/-- Claim C3 as amended: the short forecast is computed exactly for daily
series with at least 7 points (not 3: the inner ≥ 3 check is vacuous under
the outer ≥ 7 gate).  It then takes the last 7 points, splits them into a
first half of 3 and a second half of 4, computes the percent delta of the
half means (0 when the first half's mean is not positive), and projects
(mean of the last 3 points) × (1 + delta/100). -/
theorem correctitud_C3 :
    (∀ l : List ℕ, (pronostico l).isSome = true ↔ 7 ≤ l.length)
    ∧ (∀ l : List ℕ, 7 ≤ l.length →
        pronostico l =
          some (promedioN ((l.drop (l.length - 7)).drop 4) *
            (1 +
              (if 0 < promedioN ((l.drop (l.length - 7)).take 3) then
                (promedioN ((l.drop (l.length - 7)).drop 3) -
                    promedioN ((l.drop (l.length - 7)).take 3)) /
                  promedioN ((l.drop (l.length - 7)).take 3) * 100
              else 0) / 100))) := by
  have hu : ∀ l : List ℕ, 7 ≤ l.length → (l.drop (l.length - 7)).length = 7 := by
    intro l h
    rw [List.length_drop]
    omega
  constructor
  · intro l
    by_cases h : 7 ≤ l.length
    · simp only [pronostico, if_pos h, hu l h]
      norm_num [h]
    · simp only [pronostico, if_neg h]
      simp [h]
  · intro l h
    simp only [pronostico, if_pos h, hu l h]
    norm_num

/-- Witness for the amended C3: the 7-point series `[10,...,70]` has a
forecast, and the amended formula evaluates there to `165`
(half means 20 and 55, delta +175%, mean of last 3 = 60). -/
theorem correctitud_C3_testigo :
    7 ≤ ([10, 20, 30, 40, 50, 60, 70] : List ℕ).length ∧
      pronostico [10, 20, 30, 40, 50, 60, 70] = some 165 := by
  refine ⟨by norm_num, ?_⟩
  have h := correctitud_C3.2 [10, 20, 30, 40, 50, 60, 70] (by norm_num)
  rw [h]
  norm_num [promedioN]

/-- Claim C4: in the correlation scan over the date × country count matrix
(missing combinations filled with 0), an ordered pair of distinct columns
is reported as "competing" iff its Pearson correlation is < −0.3 and as
"co-moving" iff it is > 0.7 (both decided in exact squared form; NaN
correlations of constant columns satisfy neither, and the membership
characterisation shows every other pair is unreported).  Moreover any two
series that are exact negatives of each other after mean-centering (and
non-constant) satisfy the "competing" test with correlation ≤ −0.99; in the
concrete mirrored example the pair `(0, 1)` is reported. -/
theorem correctitud_C4 :
    (∀ rs : List Registro, ∀ p q : ℕ,
      ((p, q) ∈ paresNegativos rs ↔
        (p, q) ∈ paresColumnas rs ∧
          correlacionNegFuerte (columna rs p) (columna rs q) = true)
      ∧ ((p, q) ∈ paresPositivos rs ↔
        (p, q) ∈ paresColumnas rs ∧
          correlacionPosFuerte (columna rs p) (columna rs q) = true))
    ∧ (∀ x y : List ℚ,
        List.Forall₂ (fun a b => b - promedioQ y = -(a - promedioQ x)) x y →
        0 < desviaciones2 x →
        correlacionNegFuerte x y = true ∧ correlacionLeMenos099 x y = true)
    ∧ paresNegativos ejemploEspejo = [(0, 1)]
    ∧ correlacionLeMenos099 (columna ejemploEspejo 0) (columna ejemploEspejo 1) =
        true := by
  refine ⟨?_, ?_, paresNegativos_espejo, ?_⟩
  · intro rs p q
    constructor
    · rw [paresNegativos, List.mem_filter]
    · rw [paresPositivos, List.mem_filter]
  · intro x y hf hx
    obtain ⟨hc, hv⟩ := codesviaciones_espejo x y hf
    rw [correlacionNegFuerte, correlacionLeMenos099, hc, hv]
    simp only [Bool.and_eq_true, decide_eq_true_eq]
    refine ⟨⟨by linarith, by nlinarith⟩, ⟨by linarith, by nlinarith⟩⟩
  · rw [columna_espejo_0, columna_espejo_1]
    norm_num [correlacionLeMenos099, codesviaciones, desviaciones2, promedioQ]

/-- Witness for C4: the mirrored pair `[1,2,3,4]`, `[4,3,2,1]` satisfies the
mean-centred-negation hypothesis with positive variance, and the theorem
yields its "competing" classification with correlation ≤ −0.99. -/
theorem correctitud_C4_testigo :
    List.Forall₂
      (fun a b => b - promedioQ [4, 3, 2, 1] = -(a - promedioQ [1, 2, 3, 4]))
      [1, 2, 3, 4] ([4, 3, 2, 1] : List ℚ) ∧
    0 < desviaciones2 [1, 2, 3, 4] ∧
    (correlacionNegFuerte [1, 2, 3, 4] [4, 3, 2, 1] = true ∧
      correlacionLeMenos099 [1, 2, 3, 4] [4, 3, 2, 1] = true) := by
  have hf : List.Forall₂
      (fun a b => b - promedioQ [4, 3, 2, 1] = -(a - promedioQ [1, 2, 3, 4]))
      [1, 2, 3, 4] ([4, 3, 2, 1] : List ℚ) := by
    refine .cons (by norm_num [promedioQ]) (.cons (by norm_num [promedioQ])
      (.cons (by norm_num [promedioQ]) (.cons (by norm_num [promedioQ]) .nil)))
  have hx : 0 < desviaciones2 [1, 2, 3, 4] := by
    norm_num [desviaciones2, promedioQ]
  exact ⟨hf, hx, correctitud_C4.2.1 [1, 2, 3, 4] [4, 3, 2, 1] hf hx⟩

/-- The correlation analysis with at least two countries but at most one
distinct date runs and reports no pairs: every column has at most one
entry, so every `Sxy` is 0 and neither threshold test passes. -/
theorem analisis_sin_pares (rs : List Registro)
    (hp : 1 < (paisesDistintos rs).length)
    (hf : (fechasDistintas rs).length ≤ 1) :
    analisisCorrelaciones rs = some ([], []) := by
  have hneg : paresNegativos rs = [] := by
    rw [paresNegativos]
    rw [List.filter_eq_nil_iff]
    intro pq hpq
    simp [(pares_en_analisis rs pq hf).1]
  have hpos : paresPositivos rs = [] := by
    rw [paresPositivos]
    rw [List.filter_eq_nil_iff]
    intro pq hpq
    simp [(pares_en_analisis rs pq hf).2]
  rw [analisisCorrelaciones, if_pos hp,
    if_pos (by rw [paisesOrdenados, length_ordenar]; omega), hneg, hpos]

/-- Counterexample to C5 as stated: a view with 2 countries but a single
distinct date.  The claim says the correlation analysis is skipped
(requires ≥ 2 distinct dates); the code runs it — there is no date gate —
and reports no pairs (all correlations are NaN). -/
theorem contraejemplo_C5 :
    (fechasDistintas [registroDe 0 0, registroDe 0 1]).length = 1 ∧
      analisisCorrelaciones [registroDe 0 0, registroDe 0 1] = some ([], []) := by
  refine ⟨rfl, analisis_sin_pares _ (by decide) (by decide)⟩

/-- Claim C5 as amended: the correlation analysis runs iff the filtered
view has at least 2 distinct categories — there is no gate on the number of
distinct dates.  When it runs with fewer than 2 distinct dates it reports
no pairs (every pairwise correlation is the NaN of a length-≤1 column), and
in every case the analysis is a total function: no error is raised. -/
theorem correctitud_C5 :
    (∀ rs : List Registro,
      (analisisCorrelaciones rs).isSome = true ↔ 2 ≤ (paisesDistintos rs).length)
    ∧ (∀ rs : List Registro, 2 ≤ (paisesDistintos rs).length →
        (fechasDistintas rs).length ≤ 1 →
        analisisCorrelaciones rs = some ([], [])) := by
  constructor
  · intro rs
    have hl : (paisesOrdenados rs).length = (paisesDistintos rs).length := by
      rw [paisesOrdenados, length_ordenar]
    rw [analisisCorrelaciones]
    by_cases h : 1 < (paisesDistintos rs).length
    · rw [if_pos h, if_pos (by omega : 2 ≤ (paisesOrdenados rs).length)]
      simp
      omega
    · rw [if_neg h]
      simp
      omega
  · intro rs hp hf
    exact analisis_sin_pares rs (by omega) hf

/-- Witness for C5: the two-country, one-date view instantiates both parts
of the amended claim. -/
theorem correctitud_C5_testigo :
    ((analisisCorrelaciones [registroDe 0 0, registroDe 0 1]).isSome = true ↔
      2 ≤ (paisesDistintos [registroDe 0 0, registroDe 0 1]).length) ∧
    2 ≤ (paisesDistintos [registroDe 0 0, registroDe 0 1]).length ∧
    (fechasDistintas [registroDe 0 0, registroDe 0 1]).length ≤ 1 ∧
    analisisCorrelaciones [registroDe 0 0, registroDe 0 1] = some ([], []) := by
  refine ⟨correctitud_C5.1 _, by decide, by decide, ?_⟩
  exact correctitud_C5.2 _ (by decide) (by decide)

set_option maxRecDepth 8000 in
/-- Counterexample to C6 as stated: a non-empty category aggregate of 300
equal counts.  Each share `1/3 %` rounds to `0.33`, so the displayed
percentages sum to `99` — off by a full point, far outside the claimed
`0.1` tolerance. -/
theorem contraejemplo_C6 :
    (List.replicate 300 1 : List ℕ) ≠ [] ∧
      1/10 < |sumaPorcentajes (List.replicate 300 1) - 100| := by
  constructor
  · simp
  · have hsum : (((List.replicate 300 1 : List ℕ).sum : ℕ) : ℚ) = 300 := by
      rw [List.sum_replicate]
      norm_num
    have h33 : redondear2 ((1 : ℚ) / 300 * 100) = 33/100 := by
      norm_num [redondear2, redondearEntero, Int.fract]
    have hval : sumaPorcentajes (List.replicate 300 1) = 99 := by
      rw [sumaPorcentajes, porcentajes, List.map_replicate]
      simp only [hsum, Nat.cast_one, h33]
      rw [List.sum_replicate]
      norm_num
    rw [hval]
    norm_num [abs_of_nonpos]

/-- Claim C6 as amended: for a non-empty category aggregate of positive
group counts with at most 20 categories, the rounded percentage shares sum
to 100 within 0.1 (each 2-decimal rounding moves a share by at most 0.005,
and the exact shares sum to exactly 100).  With more than 20 categories the
accumulated rounding error can exceed 0.1 (see the counterexample). -/
theorem correctitud_C6 (counts : List ℕ) (h0 : counts ≠ [])
    (hpos : ∀ c ∈ counts, 0 < c) (hlen : counts.length ≤ 20) :
    |sumaPorcentajes counts - 100| ≤ 1/10 := by
  obtain ⟨c, hc⟩ := List.exists_mem_of_ne_nil _ h0
  have hS : 0 < counts.sum :=
    lt_of_lt_of_le (hpos c hc)
      (List.single_le_sum (fun x _ => Nat.zero_le x) c hc)
  have hSQ : ((counts.sum : ℕ) : ℚ) ≠ 0 := by
    exact_mod_cast hS.ne'
  have hcrudo : (counts.map (fun (c : ℕ) => (c : ℚ) / (counts.sum : ℚ) * 100)).sum
      = 100 := by
    rw [suma_partes_crudas, div_self hSQ, one_mul]
  have hmapmap : porcentajes counts =
      (counts.map (fun (c : ℕ) => (c : ℚ) / (counts.sum : ℚ) * 100)).map
        redondear2 := by
    rw [porcentajes, List.map_map]
    rfl
  have hbound :=
    suma_redondear2_cerca (counts.map (fun (c : ℕ) => (c : ℚ) / (counts.sum : ℚ) * 100))
  rw [List.length_map, hcrudo] at hbound
  rw [sumaPorcentajes, hmapmap]
  have hlenQ : ((counts.length : ℕ) : ℚ) ≤ 20 := by exact_mod_cast hlen
  calc |((counts.map (fun (c : ℕ) => (c : ℚ) / (counts.sum : ℚ) * 100)).map
          redondear2).sum - 100|
      ≤ (counts.length : ℚ) / 200 := hbound
    _ ≤ 20 / 200 := by linarith
    _ ≤ 1/10 := by norm_num

/-- Witness for C6 (amended): the three-category aggregate `[1, 1, 1]`,
whose displayed shares are three copies of 33.33 summing to 99.99. -/
theorem correctitud_C6_testigo :
    ([1, 1, 1] : List ℕ) ≠ [] ∧ (∀ c ∈ ([1, 1, 1] : List ℕ), 0 < c) ∧
      ([1, 1, 1] : List ℕ).length ≤ 20 ∧
      sumaPorcentajes [1, 1, 1] = 9999/100 ∧
      |sumaPorcentajes [1, 1, 1] - 100| ≤ 1/10 := by
  have hval : sumaPorcentajes [1, 1, 1] = 9999/100 := by
    have h : redondear2 (100/3) = 3333/100 := by
      norm_num [redondear2, redondearEntero, Int.fract]
    norm_num [sumaPorcentajes, porcentajes]
    norm_num [show ((1:ℚ))/3*100 = 100/3 from by norm_num, h]
  exact ⟨by simp, by decide, by decide, hval,
    correctitud_C6 [1, 1, 1] (by simp) (by decide) (by decide)⟩

/-- Claim C7: on a constant series (all values equal, any length ≥ 1,
including a single point) neither anomaly detector flags anything: the 2σ
rule on daily counts (sample standard deviation 0, or NaN for one point)
and the 1.5·IQR rule on sizes (Q1 = Q3, zero IQR, bounds equal to the
common value). -/
theorem correctitud_C7 (l : List ℕ) (v : ℕ) (h0 : l ≠ [])
    (hconst : ∀ x ∈ l, x = v) :
    anomalias2sigma l = [] ∧ anomaliasIQR l = ([], []) := by
  constructor
  · rw [anomalias2sigma]
    by_cases h1 : l.length ≤ 1
    · rw [if_pos h1]
    · rw [if_neg h1]
      rw [List.filter_eq_nil_iff]
      intro r hr
      rw [promedioN_const l v h0 hconst, sumaDesviaciones2_const l v h0 hconst,
        hconst r hr]
      simp
  · have hq1 : cuantil l (1/4) = v :=
      cuantil_const l v (1/4) h0 (by norm_num) (by norm_num) hconst
    have hq3 : cuantil l (3/4) = v :=
      cuantil_const l v (3/4) h0 (by norm_num) (by norm_num) hconst
    rw [anomaliasIQR]
    simp only [hq1, hq3]
    have hsup : (v : ℚ) + 3/2 * ((v : ℚ) - v) = v := by ring
    have hinf : max 0 ((v : ℚ) - 3/2 * ((v : ℚ) - v)) = v := by
      rw [show (v : ℚ) - 3/2 * ((v : ℚ) - v) = (v : ℚ) by ring]
      exact max_eq_right (Nat.cast_nonneg v)
    rw [hsup, hinf, Prod.mk.injEq]
    constructor <;> rw [List.filter_eq_nil_iff] <;> intro r hr <;>
      rw [hconst r hr] <;> simp

/-- Witness for C7: the constant series `[7, 7, 7]`. -/
theorem correctitud_C7_testigo :
    ([7, 7, 7] : List ℕ) ≠ [] ∧ (∀ x ∈ ([7, 7, 7] : List ℕ), x = 7) ∧
      anomalias2sigma [7, 7, 7] = [] ∧ anomaliasIQR [7, 7, 7] = ([], []) := by
  have h := correctitud_C7 [7, 7, 7] 7 (by simp) (by decide)
  exact ⟨by simp, by decide, h.1, h.2⟩

/-- Counterexample to C8 as stated: on `[0, 50]` the overall-trend percent
change has a zero first value; the code's guard returns the number `0`
(classified "stable"), not a "not applicable" sentinel.  Likewise the
per-country segment trend on `[0, 0, 50, 50]` has a zero first-segment mean
and yields the number `0`. -/
theorem contraejemplo_C8 :
    primerValor [0, 50] = 0 ∧ cambioPorcentual [0, 50] = 0 ∧
      clasificacionTendencia [0, 50] = .estable ∧
      tendenciaPais [0, 0, 50, 50] = some 0 := by
  refine ⟨rfl, ?_, ?_, ?_⟩
  · norm_num [cambioPorcentual, primerValor]
  · rw [clasificacionTendencia]
    norm_num [cambioPorcentual, primerValor]
  · norm_num [tendenciaPais, promedioN]

/-- Claim C8 as amended: every rate computation guards its zero denominator
— no division fault can be raised (the embedded functions are total) — but
the percent-change guards return the numeric value 0 instead of a sentinel:
`overallTrend` with a zero first value yields 0 and classifies "stable",
and `segmentTrend` with a zero first-segment mean yields `some 0`. -/
theorem correctitud_C8 :
    (∀ l : List ℕ, primerValor l = 0 →
      cambioPorcentual l = 0 ∧ clasificacionTendencia l = .estable)
    ∧ (∀ s : List ℕ, 3 < s.length →
        promedioN (s.take (max 1 (s.length / 3))) = 0 →
        tendenciaPais s = some 0) := by
  constructor
  · intro l h
    have hc : cambioPorcentual l = 0 := by
      rw [cambioPorcentual, if_neg (by omega)]
    refine ⟨hc, ?_⟩
    rw [clasificacionTendencia, hc]
    norm_num
  · intro s hlen hz
    simp only [tendenciaPais, if_pos hlen]
    rw [hz]
    norm_num

/-- Witness for C8 (amended): the two series of the counterexample
instantiate both guarded branches. -/
theorem correctitud_C8_testigo :
    primerValor [0, 50] = 0 ∧
      (cambioPorcentual [0, 50] = 0 ∧ clasificacionTendencia [0, 50] = .estable) ∧
      3 < ([0, 0, 50, 50] : List ℕ).length ∧
      promedioN (([0, 0, 50, 50] : List ℕ).take
        (max 1 (([0, 0, 50, 50] : List ℕ).length / 3))) = 0 ∧
      tendenciaPais [0, 0, 50, 50] = some 0 := by
  have h1 := correctitud_C8.1 [0, 50] rfl
  have hz : promedioN (([0, 0, 50, 50] : List ℕ).take
      (max 1 (([0, 0, 50, 50] : List ℕ).length / 3))) = 0 := by
    norm_num [promedioN]
  have h2 := correctitud_C8.2 [0, 0, 50, 50] (by norm_num) hz
  exact ⟨rfl, h1, by norm_num, hz, h2⟩

/-- Claim C9: on the empty filtered view every embedded tab analysis
short-circuits to the explicit no-data result (`none`) instead of computing
on the empty input, and the success-rate metric shows "N/A"; every analysis
is a total Lean function, so no exception can be raised. -/
theorem correctitud_C9 :
    tabTendencias [] = none ∧ tabPais [] = none ∧ tabDiaSemana [] = none ∧
      tabFecha [] = none ∧ tabHora [] = none ∧ tabResumen [] = none ∧
      tasaExito true [] = none ∧ tasaExito false [] = none := by
  refine ⟨rfl, rfl, rfl, rfl, rfl, rfl, ?_, ?_⟩ <;>
    simp [tasaExito]

/-- Claim C10: a record counts as successful iff its status contains
"success" in any letter case and any surrounding text — so "Unsuccessful"
is counted as a success — and the success rate is that count divided by the
number of filtered records, times 100; with the status column absent, or an
empty view, the metric is "N/A" (`none`). -/
theorem correctitud_C10 :
    (∀ rs : List Registro, 0 < rs.length →
      tasaExito true rs =
        some (((rs.filter (fun r => esExitoso r.status)).length : ℚ) /
          (rs.length : ℚ) * 100))
    ∧ (∀ rs : List Registro, tasaExito false rs = none)
    ∧ tasaExito true [] = none
    ∧ esExitoso "Unsuccessful" = true
    ∧ esExitoso "big SUCCESS here" = true
    ∧ esExitoso "Success" = true
    ∧ esExitoso "Failed" = false := by
  refine ⟨?_, ?_, by simp [tasaExito], by decide, by decide, by decide, by decide⟩
  · intro rs h
    rw [tasaExito, if_pos ⟨rfl, h⟩]
  · intro rs
    rw [tasaExito]
    simp

/-- Witness for C10: a two-record view whose statuses are "Unsuccessful"
and "Failed"; exactly the first is counted, giving a 50% success rate. -/
theorem correctitud_C10_testigo :
    0 < ([{ fecha := 0, pais := 0, dia := .lunes, hora := 0,
            status := "Unsuccessful" },
          { fecha := 1, pais := 0, dia := .martes, hora := 1,
            status := "Failed" }] : List Registro).length ∧
    tasaExito true
      [{ fecha := 0, pais := 0, dia := .lunes, hora := 0,
         status := "Unsuccessful" },
       { fecha := 1, pais := 0, dia := .martes, hora := 1,
         status := "Failed" }] = some 50 := by
  refine ⟨by norm_num, ?_⟩
  rw [correctitud_C10.1 _ (by norm_num)]
  norm_num [show (List.filter (fun r => esExitoso r.status)
    ([{ fecha := 0, pais := 0, dia := .lunes, hora := 0,
        status := "Unsuccessful" },
      { fecha := 1, pais := 0, dia := .martes, hora := 1,
        status := "Failed" }] : List Registro)).length = 1 from rfl]
